import Mathlib

/-!
Verification development for the docker-machine Linode driver.

The repository holds two variants of the driver:
* `Legacy`: the driver written against the Linode API v3 client
  (taoh/linodego), file linode.go, with numeric instance status codes and
  an explicit create workflow (allocate, label, ip list, primary disk,
  swap disk, boot configuration, boot, running poll).
* `V4`: the driver written against the Linode API v4 client
  (chiefy/linodego), file part_000, with named instance status strings and
  a shorter create workflow (allocate with options, pick the first
  non-private IPv4 address, wait for the running status).

Remote calls are modelled by an explicit environment of responses: every
lifecycle operation returns the list of remote calls it issued, its result,
and the driver record it leaves behind.  Machine integers of the source are
modelled as Int (Go int fields) or Nat (lengths, seconds); fallible remote
calls return Except.
-/

namespace DockerMachineLinode

/-- The state vocabulary of libmachine (state.State): the fixed set of
machine states a driver reports to the host. -/
inductive MachineState
  | None
  | Running
  | Paused
  | Saved
  | Stopped
  | Stopping
  | Starting
  | Error
deriving DecidableEq

/-- The six states the specification names for the state mapping. -/
def specStates : List MachineState :=
  [MachineState.Starting, MachineState.Running, MachineState.Stopping,
   MachineState.Stopped, MachineState.Error, MachineState.None]

/-- The remote API calls either driver variant can issue, one constructor
per client method used anywhere in the source. -/
inductive RemoteCall
  | linodeCreate
  | linodeUpdate
  | ipList
  | diskCreateFromDistribution
  | diskCreate
  | jobList
  | configCreate
  | linodeBoot
  | linodeList
  | linodeShutdown
  | linodeDelete
  | linodeReboot
  | instanceCreate
  | instanceGet
  | instanceBoot
  | instanceShutdown
  | instanceDelete
  | instanceReboot
  | instanceWaitRunning
deriving DecidableEq

/-- Result of a whole lifecycle operation: normal return, error return, or
a Go runtime panic (an out-of-range index). -/
inductive CResult
  | ok
  | fail (e : String)
  | panicked
deriving DecidableEq

namespace Legacy

/-- The legacy driver record (linode.go): the flat configuration and
runtime fields, plus clientInit modelling the lazily constructed API
client of getClient. -/
structure Driver where
  APIKey : String := ""
  IPAddress : String := ""
  DockerPort : Int := 0
  LinodeId : Int := 0
  LinodeLabel : String := ""
  DataCenterId : Int := 0
  PlanId : Int := 0
  PaymentTerm : Int := 0
  RootPassword : String := ""
  SSHPort : Int := 0
  DistributionId : Int := 0
  KernelId : Int := 0
  clientInit : Bool := false
deriving DecidableEq

/-- The numeric status switch of legacy GetState: -1 and 0 map to
starting, 1 to running, -2, 2 and 4 to stopped, 3 to stopping, anything
else to none. -/
def statusToState (status : Int) : MachineState :=
  if status = -1 ∨ status = 0 then MachineState.Starting
  else if status = 1 then MachineState.Running
  else if status = -2 ∨ status = 2 ∨ status = 4 then MachineState.Stopped
  else if status = 3 then MachineState.Stopping
  else MachineState.None

/-- One entry of a job status response of Job.List. -/
structure JobInfo where
  jobId : Int
  hostSuccess : String
deriving DecidableEq

/-- Outcome of one poll iteration of waitForJob on one job status
response.  The guard in the source compares the length of the job list
against 0 with a strict less-than, which never holds, so on an empty list
the source goes on to index the first element: a runtime panic. -/
inductive JobStep
  | success
  | waitMore
  | notFound
  | indexOutOfRange
  | apiError (e : String)
deriving DecidableEq

/-- One poll iteration of waitForJob, as linode.go checks the response. -/
def waitForJobStep (resp : Except String (List JobInfo)) (jobId : Int) : JobStep :=
  match resp with
  | .error e => .apiError e
  | .ok jobs =>
    match jobs.head? with
    | none => if jobs.length < 0 then .notFound else .indexOutOfRange
    | some j =>
      if jobs.length < 0 ∨ j.jobId ≠ jobId then .notFound
      else if j.hostSuccess = "1" then .success
      else .waitMore

/-- Outcome of a whole waitForJob call. -/
inductive WaitResult
  | success
  | timedOut
  | notFound
  | indexOutOfRange
  | apiError (e : String)
deriving DecidableEq

/-- The waitForJob loop: fuel is the remaining one-second ticks before
the timeout fires, elapsed counts the seconds since the call started. -/
def waitForJobAux (resp : Nat → Except String (List JobInfo)) (jobId : Int) :
    Nat → Nat → List RemoteCall × WaitResult × Nat
  | 0, elapsed => ([], .timedOut, elapsed)
  | fuel + 1, elapsed =>
    match waitForJobStep (resp (elapsed + 1)) jobId with
    | .apiError e => ([.jobList], .apiError e, elapsed + 1)
    | .indexOutOfRange => ([.jobList], .indexOutOfRange, elapsed + 1)
    | .notFound => ([.jobList], .notFound, elapsed + 1)
    | .success => ([.jobList], .success, elapsed + 1)
    | .waitMore =>
      let r := waitForJobAux resp jobId fuel (elapsed + 1)
      (.jobList :: r.1, r.2)

/-- waitForJob of linode.go: one job status query per one-second tick, a
timeout after timeOutSeconds seconds.  Returns the remote calls issued,
the outcome, and the elapsed seconds at return. -/
def waitForJob (resp : Nat → Except String (List JobInfo)) (jobId : Int)
    (timeOutSeconds : Nat) : List RemoteCall × WaitResult × Nat :=
  waitForJobAux resp jobId timeOutSeconds 0

/-- How Create reacts to the outcome of one waitForJob call: on success
the continuation k runs, a timeout or a not-found outcome or a propagated
API error aborts Create with the corresponding message, and an
out-of-range index is a panic. -/
def afterWait (jobName : String) (timeOutSeconds : Nat)
    (w : List RemoteCall × WaitResult × Nat) (d : Driver)
    (k : Unit → List RemoteCall × CResult × Driver) :
    List RemoteCall × CResult × Driver :=
  match w.2.1 with
  | .success => let r := k (); (w.1 ++ r.1, r.2)
  | .timedOut =>
    (w.1, .fail ("Job " ++ jobName ++ " timed out after " ++
      toString timeOutSeconds ++ " seconds."), d)
  | .notFound => (w.1, .fail ("Job " ++ jobName ++ " is not found."), d)
  | .apiError e => (w.1, .fail e, d)
  | .indexOutOfRange => (w.1, .panicked, d)

/-- drivers.MachineInState applied to the running state, on one
Linode.List response: an API error is ignored and compares as not
running; an empty linode list makes GetState panic (none). -/
def machineInRunning (resp : Except String (List Int)) : Option Bool :=
  match resp with
  | .error _ => some false
  | .ok statuses =>
    match statuses.head? with
    | none => none
    | some c => some (decide (statusToState c = MachineState.Running))

/-- Outcome of the running-state poll after boot. -/
inductive PollResult
  | reached
  | timedOut
  | panicked
deriving DecidableEq

/-- The attempt loop of mcnutils.WaitForSpecific: one GetState call per
attempt, up to the given number of attempts. -/
def waitForRunningAux (resp : Nat → Except String (List Int)) :
    Nat → Nat → List RemoteCall × PollResult
  | 0, _ => ([], .timedOut)
  | fuel + 1, attempt =>
    match machineInRunning (resp attempt) with
    | none => ([.linodeList], .panicked)
    | some true => ([.linodeList], .reached)
    | some false =>
      let r := waitForRunningAux resp fuel (attempt + 1)
      (.linodeList :: r.1, r.2)

/-- mcnutils.WaitForSpecific on MachineInState running with the given
number of attempts, counted from attempt 1. -/
def WaitForSpecificRunning (resp : Nat → Except String (List Int))
    (maxAttempts : Nat) : List RemoteCall × PollResult :=
  waitForRunningAux resp maxAttempts 1

/-- One entry of an Ip.List response. -/
structure FullIP where
  IPAddress : String
  IsPublic : Int
deriving DecidableEq

/-- The IP selection loop of legacy Create: every address whose IsPublic
flag is 1 overwrites the field, with no break, so the last public address
of the list wins; with no public address the field keeps its initial
value. -/
def selectPublicIP (initial : String) (fips : List FullIP) : String :=
  fips.foldl (fun acc f => if f.IsPublic = 1 then f.IPAddress else acc) initial

/-- The remote responses a run of legacy Create consumes, one field per
remote call site; the per-tick response functions feed the three
waitForJob calls and the final running-state poll. -/
structure CreateEnv where
  sshKey : Except String String
  linodeCreate : Except String Int
  linodeUpdate : Except String Unit
  ipList : Except String (List FullIP)
  diskFromDist : Except String (Int × Int)
  diskJobResp : Nat → Except String (List JobInfo)
  swapCreate : Except String (Int × Int)
  swapJobResp : Nat → Except String (List JobInfo)
  configCreate : Except String Unit
  boot : Except String Int
  bootJobResp : Nat → Except String (List JobInfo)
  statusResp : Nat → Except String (List Int)

/-- Tail of legacy Create from the boot step: issue boot, wait for the
boot job, then poll the machine state until running with 120 attempts. -/
def createBootOn (d : Driver) (env : CreateEnv) :
    List RemoteCall × CResult × Driver :=
  match env.boot with
  | .error e => ([.linodeBoot], .fail e, d)
  | .ok jobId =>
    let w := waitForJob env.bootJobResp jobId 60
    let r := afterWait "Booting linode" 60 w d (fun _ =>
      match WaitForSpecificRunning env.statusResp 120 with
      | (ptr, .reached) => (ptr, .ok, d)
      | (ptr, .timedOut) =>
        (ptr, .fail "wait for machine running failed: maximum number of retries (120) exceeded", d)
      | (ptr, .panicked) => (ptr, .panicked, d))
    (.linodeBoot :: r.1, r.2)

/-- Tail of legacy Create from the boot-configuration step. -/
def createConfigOn (d : Driver) (env : CreateEnv) :
    List RemoteCall × CResult × Driver :=
  match env.configCreate with
  | .error e => ([.configCreate], .fail e, d)
  | .ok _ =>
    let r := createBootOn d env
    (.configCreate :: r.1, r.2)

/-- Tail of legacy Create from the swap-disk step. -/
def createSwapOn (d : Driver) (env : CreateEnv) :
    List RemoteCall × CResult × Driver :=
  match env.swapCreate with
  | .error e => ([.diskCreate], .fail e, d)
  | .ok jobAndDisk =>
    let w := waitForJob env.swapJobResp jobAndDisk.1 60
    let r := afterWait "Create Swap Disk Task" 60 w d (fun _ => createConfigOn d env)
    (.diskCreate :: r.1, r.2)

/-- Tail of legacy Create from the primary-disk step. -/
def createDisksOn (d : Driver) (env : CreateEnv) :
    List RemoteCall × CResult × Driver :=
  match env.diskFromDist with
  | .error e => ([.diskCreateFromDistribution], .fail e, d)
  | .ok jobAndDisk =>
    let w := waitForJob env.diskJobResp jobAndDisk.1 60
    let r := afterWait "Create Disk Task" 60 w d (fun _ => createSwapOn d env)
    (.diskCreateFromDistribution :: r.1, r.2)

/-- Tail of legacy Create from the address-discovery step: list the
addresses, keep the last public one, and abort when the field is still
empty. -/
def createFromIp (d1 : Driver) (env : CreateEnv) :
    List RemoteCall × CResult × Driver :=
  match env.ipList with
  | .error e => ([.ipList], .fail e, d1)
  | .ok fips =>
    let d2 := { d1 with IPAddress := selectPublicIP d1.IPAddress fips }
    if d2.IPAddress = "" then
      ([.ipList], .fail "Linode IP Address is not found.", d2)
    else
      let r := createDisksOn d2 env
      (.ipList :: r.1, r.2)

/-- Legacy Create (linode.go): generate the key, allocate the linode and
record its identifier, rename it when a label is configured, discover the
address, create the primary disk, the swap disk and the boot
configuration, boot, and poll until running.  Each failure aborts with
the underlying error. -/
def Create (d0 : Driver) (env : CreateEnv) :
    List RemoteCall × CResult × Driver :=
  match env.sshKey with
  | .error e => ([], .fail e, d0)
  | .ok _publicKey =>
    let d := { d0 with clientInit := true }
    match env.linodeCreate with
    | .error e => ([.linodeCreate], .fail e, d)
    | .ok lid =>
      let d1 := { d with LinodeId := lid }
      if d1.LinodeLabel = "" then
        let r := createFromIp d1 env
        (.linodeCreate :: r.1, r.2)
      else
        match env.linodeUpdate with
        | .error e => ([.linodeCreate, .linodeUpdate], .fail e, d1)
        | .ok _ =>
          let r := createFromIp d1 env
          (.linodeCreate :: .linodeUpdate :: r.1, r.2)

/-- Legacy Start: one Boot call, the error returned as is. -/
def Start (d : Driver) (resp : Except String Unit) :
    List RemoteCall × Except String Unit × Driver :=
  ([.linodeBoot], resp, { d with clientInit := true })

/-- Legacy Stop: one Shutdown call, the error returned as is. -/
def Stop (d : Driver) (resp : Except String Unit) :
    List RemoteCall × Except String Unit × Driver :=
  ([.linodeShutdown], resp, { d with clientInit := true })

/-- Legacy Kill: one Shutdown call, the error returned as is. -/
def Kill (d : Driver) (resp : Except String Unit) :
    List RemoteCall × Except String Unit × Driver :=
  ([.linodeShutdown], resp, { d with clientInit := true })

/-- Legacy Restart: one Reboot call, the error returned as is. -/
def Restart (d : Driver) (resp : Except String Unit) :
    List RemoteCall × Except String Unit × Driver :=
  ([.linodeReboot], resp, { d with clientInit := true })

/-- Legacy Remove: one Delete call, the error returned as is. -/
def Remove (d : Driver) (resp : Except String Unit) :
    List RemoteCall × Except String Unit × Driver :=
  ([.linodeDelete], resp, { d with clientInit := true })

/-- Legacy GetState: one Linode.List call; an API error reports the error
state together with the error; the status of the first returned linode
goes through the status switch; an empty list is a runtime panic (the
source indexes the first element unconditionally), modelled as none. -/
def GetState (d : Driver) (resp : Except String (List Int)) :
    List RemoteCall × Option (MachineState × Option String) × Driver :=
  ([.linodeList],
   (match resp with
    | .error e => some (MachineState.Error, some e)
    | .ok statuses =>
      match statuses.head? with
      | none => none
      | some c => some (statusToState c, none)),
   { d with clientInit := true })

/-- Legacy GetIP: no remote call; the cached field, or an error when the
field is still empty. -/
def GetIP (d : Driver) : List RemoteCall × Except String String × Driver :=
  ([],
   if d.IPAddress = "" then .error "IP address is not set" else .ok d.IPAddress,
   d)

/-- Legacy GetURL: the cached address wrapped in a tcp URL with the
configured Docker port; no remote call. -/
def GetURL (d : Driver) : List RemoteCall × Except String String × Driver :=
  match (GetIP d).2.1 with
  | .error e => ([], .error e, d)
  | .ok ip =>
    ([], .ok (if ip = "" then ""
              else "tcp://" ++ ip ++ ":" ++ toString d.DockerPort), d)

end Legacy

/-- drivers.DriverOptions: the named option lookups a driver binds its
configuration from. -/
structure DriverOptions where
  str : String → String
  int : String → Int

namespace Legacy

/-- Legacy SetConfigFromFlags: copy the named options into the record,
then require a non-empty API key and a non-empty root password.  The body
issues no remote call, so the call list is empty on every path. -/
def SetConfigFromFlags (d : Driver) (flags : DriverOptions) :
    List RemoteCall × Except String Driver :=
  let d1 : Driver :=
    { d with
      APIKey := flags.str "linode-api-key"
      DataCenterId := flags.int "linode-datacenter-id"
      PlanId := flags.int "linode-plan-id"
      PaymentTerm := flags.int "linode-payment-term"
      RootPassword := flags.str "linode-root-pass"
      SSHPort := flags.int "linode-ssh-port"
      DistributionId := flags.int "linode-distribution-id"
      KernelId := flags.int "linode-kernel-id"
      LinodeLabel := flags.str "linode-label"
      DockerPort := flags.int "linode-docker-port" }
  if d1.APIKey = "" then
    ([], .error "linode driver requires the --linode-api-key option")
  else if d1.RootPassword = "" then
    ([], .error "linode driver requires the --linode-root-pass option")
  else
    ([], .ok d1)

end Legacy

namespace V4

/-- The v4 driver record (part_000): note the InstanceID field, which the
v4 Create never assigns. -/
structure Driver where
  APIToken : String := ""
  IPAddress : String := ""
  DockerPort : Int := 0
  InstanceID : Int := 0
  InstanceLabel : String := ""
  Region : String := ""
  InstanceType : String := ""
  RootPassword : String := ""
  SSHPort : Int := 0
  InstanceImage : String := ""
  InstanceKernel : String := ""
  SwapSize : Int := 0
  clientInit : Bool := false
deriving DecidableEq

/-- Instance status constants of the v4 linodego client. -/
def InstanceBooting : String := "booting"

/-- Status constant: a running instance. -/
def InstanceRunning : String := "running"

/-- Status constant: an offline instance. -/
def InstanceOffline : String := "offline"

/-- Status constant: an instance shutting down. -/
def InstanceShuttingDown : String := "shutting_down"

/-- Status constant: a rebooting instance. -/
def InstanceRebooting : String := "rebooting"

/-- Status constant: an instance still provisioning. -/
def InstanceProvisioning : String := "provisioning"

/-- Status constant: an instance being deleted. -/
def InstanceDeleting : String := "deleting"

/-- Status constant: an instance being migrated. -/
def InstanceMigrating : String := "migrating"

/-- Status constant: an instance being rebuilt. -/
def InstanceRebuilding : String := "rebuilding"

/-- Status constant: an instance being cloned. -/
def InstanceCloning : String := "cloning"

/-- Status constant: an instance being restored. -/
def InstanceRestoring : String := "restoring"

/-- The status strings the v4 GetState switch recognizes. -/
def recognizedStatuses : List String :=
  [InstanceRunning, InstanceOffline, InstanceRebuilding, InstanceMigrating,
   InstanceShuttingDown, InstanceDeleting, InstanceProvisioning,
   InstanceRebooting, InstanceBooting, InstanceCloning, InstanceRestoring]

/-- The status switch of v4 GetState: running maps to running; offline,
rebuilding and migrating map to stopped; shutting_down and deleting map to
stopping; provisioning, rebooting, booting, cloning and restoring map to
starting; every other status string maps to none. -/
def statusToState (s : String) : MachineState :=
  if s = InstanceRunning then MachineState.Running
  else if s = InstanceOffline ∨ s = InstanceRebuilding ∨ s = InstanceMigrating then
    MachineState.Stopped
  else if s = InstanceShuttingDown ∨ s = InstanceDeleting then MachineState.Stopping
  else if s = InstanceProvisioning ∨ s = InstanceRebooting ∨ s = InstanceBooting ∨
      s = InstanceCloning ∨ s = InstanceRestoring then
    MachineState.Starting
  else MachineState.None

/-- One flag declaration of GetCreateFlags: its option name and its
environment-variable fallback. -/
structure FlagDef where
  Name : String
  EnvVar : String
deriving DecidableEq

/-- The flags v4 GetCreateFlags declares, in source order, each with its
environment-variable fallback. -/
def GetCreateFlags : List FlagDef :=
  [⟨"linode-api-token", "LINODE_TOKEN"⟩,
   ⟨"linode-root-pass", "LINODE_ROOT_PASSWORD"⟩,
   ⟨"linode-label", "LINODE_LABEL"⟩,
   ⟨"linode-region", "LINODE_REGION"⟩,
   ⟨"linode-type", "LINODE_INSTANCE_TYPE"⟩,
   ⟨"linode-ssh-port", "LINODE_SSH_PORT"⟩,
   ⟨"linode-image", "LINODE_IMAGE"⟩,
   ⟨"linode-kernel", "LINODE_KERNEL"⟩,
   ⟨"linode-docker-port", "LINODE_DOCKER_PORT"⟩,
   ⟨"linode-swap-size", "LINODE_SWAP_SIZE"⟩]

/-- The option names v4 SetConfigFromFlags reads, in source order: the
arguments of its flags.String and flags.Int calls. -/
def setConfigOptionNames : List String :=
  ["linode-token", "linode-region", "linode-type", "linode-root-pass",
   "linode-ssh-port", "linode-image", "linode-kernel", "linode-label",
   "linode-swap-size", "linode-docker-port"]

/-- v4 SetConfigFromFlags: copy the named options into the record (the
credential is read under the option name linode-token), then require a
non-empty token and a non-empty root password.  The body issues no remote
call, so the call list is empty on every path. -/
def SetConfigFromFlags (d : Driver) (flags : DriverOptions) :
    List RemoteCall × Except String Driver :=
  let d1 : Driver :=
    { d with
      APIToken := flags.str "linode-token"
      Region := flags.str "linode-region"
      InstanceType := flags.str "linode-type"
      RootPassword := flags.str "linode-root-pass"
      SSHPort := flags.int "linode-ssh-port"
      InstanceImage := flags.str "linode-image"
      InstanceKernel := flags.str "linode-kernel"
      InstanceLabel := flags.str "linode-label"
      SwapSize := flags.int "linode-swap-size"
      DockerPort := flags.int "linode-docker-port" }
  if d1.APIToken = "" then
    ([], .error "linode driver requires the --linode-token option")
  else if d1.RootPassword = "" then
    ([], .error "linode driver requires the --linode-root-pass option")
  else
    ([], .ok d1)

/-- An IPv4 address packed into its 32-bit value from its four octets. -/
def ipNat (a b c d : Nat) : Nat :=
  a % 256 * 16777216 + b % 256 * 65536 + c % 256 * 256 + d % 256

/-- net.IPNet.Contains for the network with the given base address and
prefix length: the address and the base agree on the top bits. -/
def cidrContains (base bits ip : Nat) : Bool :=
  ip % 4294967296 / 2 ^ (32 - bits) = base % 4294967296 / 2 ^ (32 - bits)

/-- privateIP of part_000: membership of the address in 10.0.0.0/8,
172.16.0.0/12 or 192.168.0.0/16, the RFC1918 blocks parsed in the
source. -/
def privateIP (ip : Nat) : Bool :=
  cidrContains (ipNat 10 0 0 0) 8 ip ||
  cidrContains (ipNat 172 16 0 0) 12 ip ||
  cidrContains (ipNat 192 168 0 0) 16 ip

/-- net.IP.String on an IPv4 value: the dotted quad. -/
def ipToString (ip : Nat) : String :=
  toString (ip / 16777216 % 256) ++ "." ++ toString (ip / 65536 % 256) ++ "." ++
  toString (ip / 256 % 256) ++ "." ++ toString (ip % 256)

/-- The remote responses a run of v4 Create consumes: the generated key,
the CreateInstance response (the new instance identifier and its IPv4
addresses), and the outcome of WaitForInstanceStatus. -/
structure CreateEnv where
  sshKey : Except String String
  createInstance : Except String (Int × List Nat)
  waitRunning : Except String Unit

/-- v4 Create (part_000): generate the key, allocate the instance with
the configured options, record the first non-private IPv4 address (the
loop breaks at the first address whose privateIP test is false), abort
when no such address exists, then wait for the running status.  The
InstanceID field of the record is never assigned, faithful to the
source. -/
def Create (d0 : Driver) (env : CreateEnv) :
    List RemoteCall × CResult × Driver :=
  match env.sshKey with
  | .error e => ([], .fail e, d0)
  | .ok _publicKey =>
    let d := { d0 with clientInit := true }
    match env.createInstance with
    | .error e => ([.instanceCreate], .fail e, d)
    | .ok idAndAddrs =>
      let d1 :=
        { d with
          IPAddress :=
            match idAndAddrs.2.find? (fun a => !privateIP a) with
            | some a => ipToString a
            | none => d.IPAddress }
      if d1.IPAddress = "" then
        ([.instanceCreate], .fail "Linode IP Address is not found", d1)
      else
        match env.waitRunning with
        | .error e =>
          ([.instanceCreate, .instanceWaitRunning],
           .fail ("wait for machine running failed: " ++ e), d1)
        | .ok _ => ([.instanceCreate, .instanceWaitRunning], .ok, d1)

/-- v4 Stop: one ShutdownInstance call, the error returned as is. -/
def Stop (d : Driver) (resp : Except String Unit) :
    List RemoteCall × Except String Unit × Driver :=
  ([.instanceShutdown], resp, { d with clientInit := true })

/-- v4 Kill: one ShutdownInstance call, the error returned as is. -/
def Kill (d : Driver) (resp : Except String Unit) :
    List RemoteCall × Except String Unit × Driver :=
  ([.instanceShutdown], resp, { d with clientInit := true })

end V4

/-- A concrete legacy create environment in which every response succeeds
except the address discovery, which fails. -/
def Legacy.ipListFailEnv : Legacy.CreateEnv where
  sshKey := .ok "pk"
  linodeCreate := .ok 42
  linodeUpdate := .ok ()
  ipList := .error "boom"
  diskFromDist := .ok (0, 0)
  diskJobResp := fun _ => .ok []
  swapCreate := .ok (0, 0)
  swapJobResp := fun _ => .ok []
  configCreate := .ok ()
  boot := .ok 0
  bootJobResp := fun _ => .ok []
  statusResp := fun _ => .ok []

/-- A concrete legacy create environment in which every response succeeds
except the primary disk creation, which fails. -/
def Legacy.diskFailEnv : Legacy.CreateEnv where
  sshKey := .ok "pk"
  linodeCreate := .ok 42
  linodeUpdate := .ok ()
  ipList := .ok [⟨"203.0.113.7", 1⟩]
  diskFromDist := .error "boom"
  diskJobResp := fun _ => .ok []
  swapCreate := .ok (0, 0)
  swapJobResp := fun _ => .ok []
  configCreate := .ok ()
  boot := .ok 0
  bootJobResp := fun _ => .ok []
  statusResp := fun _ => .ok []

/-- The remote calls legacy Create can issue: the create workflow calls
and nothing else; in particular no delete, shutdown or reboot call. -/
def Legacy.createCalls : List RemoteCall :=
  [RemoteCall.linodeCreate, RemoteCall.linodeUpdate, RemoteCall.ipList,
   RemoteCall.diskCreateFromDistribution, RemoteCall.jobList,
   RemoteCall.diskCreate, RemoteCall.configCreate, RemoteCall.linodeBoot,
   RemoteCall.linodeList]

/-- C1, counterexample: the claim says the transitional statuses
migrating, cloning and restoring are not otherwise classified and map to
the none state; in the v4 GetState switch migrating maps to stopped and
cloning and restoring map to starting, none of them to none. -/
theorem c1_transitional_statuses_are_classified :
    V4.statusToState V4.InstanceMigrating = MachineState.Stopped ∧
    V4.statusToState V4.InstanceCloning = MachineState.Starting ∧
    V4.statusToState V4.InstanceRestoring = MachineState.Starting ∧
    V4.statusToState V4.InstanceMigrating ≠ MachineState.None ∧
    V4.statusToState V4.InstanceCloning ≠ MachineState.None := by
  decide

/-- C1, amended: for every status value both state mappings are pure
total functions into the six-state vocabulary; every status the switch
does not recognize maps to none; in the v4 variant the transitional
statuses are classified (migrating and rebuilding as stopped, deleting
and shutting_down as stopping, provisioning, booting, rebooting, cloning
and restoring as starting), so only unrecognized statuses map to none. -/
theorem c1_state_mapping_total (s : String) (n : Int) :
    V4.statusToState s ∈ specStates ∧
    Legacy.statusToState n ∈ specStates ∧
    (s ∉ V4.recognizedStatuses → V4.statusToState s = MachineState.None) ∧
    (¬ (-2 ≤ n ∧ n ≤ 4) → Legacy.statusToState n = MachineState.None) := by
  refine ⟨?_, ?_, ?_, ?_⟩
  · unfold V4.statusToState
    repeat' split
    all_goals decide
  · unfold Legacy.statusToState
    repeat' split
    all_goals decide
  · intro h
    simp only [V4.recognizedStatuses, List.mem_cons, List.not_mem_nil, or_false,
      not_or] at h
    obtain ⟨h1, h2, h3, h4, h5, h6, h7, h8, h9, h10, h11⟩ := h
    simp [V4.statusToState, h1, h2, h3, h4, h5, h6, h7, h8, h9, h10, h11]
  · intro h
    have e1 : n ≠ -1 := by omega
    have e2 : n ≠ 0 := by omega
    have e3 : n ≠ 1 := by omega
    have e4 : n ≠ -2 := by omega
    have e5 : n ≠ 2 := by omega
    have e6 : n ≠ 4 := by omega
    have e7 : n ≠ 3 := by omega
    simp [Legacy.statusToState, e1, e2, e3, e4, e5, e6, e7]

/-- C1, witness: the amended mapping facts evaluated at the concrete
status string paused and the concrete status code 7, both unrecognized. -/
theorem c1_state_mapping_total_witness :
    V4.statusToState "paused" ∈ specStates ∧
    Legacy.statusToState 7 ∈ specStates ∧
    ("paused" ∉ V4.recognizedStatuses → V4.statusToState "paused" = MachineState.None) ∧
    (¬ ((-2 : Int) ≤ 7 ∧ (7 : Int) ≤ 4) → Legacy.statusToState 7 = MachineState.None) :=
  c1_state_mapping_total "paused" 7

/-- The selection loop of v4 Create finds the first address whose
privateIP test is false: prepended all-private addresses are skipped. -/
theorem find_first_not_private (pre post : List Nat) (a : Nat)
    (hpre : ∀ x ∈ pre, V4.privateIP x = true) (ha : V4.privateIP a = false) :
    (pre ++ a :: post).find? (fun x => !V4.privateIP x) = some a := by
  induction pre with
  | nil => simp [List.find?_cons, ha]
  | cons y ys ih =>
    have hy : V4.privateIP y = true := hpre y (by simp)
    simpa [List.find?_cons, hy] using ih (fun x hx => hpre x (by simp [hx]))

/-- With every candidate address private the selection loop finds
nothing. -/
theorem find_none_of_all_private (addrs : List Nat)
    (h : ∀ x ∈ addrs, V4.privateIP x = true) :
    addrs.find? (fun x => !V4.privateIP x) = none := by
  rw [List.find?_eq_none]
  intro x hx
  simp [h x hx]

/-- A dotted quad is never the empty string. -/
theorem ipToString_ne_empty (ip : Nat) : V4.ipToString ip ≠ "" := by
  intro h
  have h2 := congrArg String.length h
  simp [V4.ipToString, String.length_append] at h2
  exact absurd h2.1.1.1.1.1.2 (by decide)

/-- C2: in v4 Create on a fresh handle, given a successful allocation
with the listed candidate addresses, the recorded address is the first
one outside the three RFC1918 blocks; and when every candidate is inside
them, Create fails with the no-address error and the handle records no
address at all. -/
theorem c2_create_picks_first_public (d : V4.Driver) (env : V4.CreateEnv)
    (pk : String) (lid : Int) (addrs : List Nat)
    (hip : d.IPAddress = "")
    (hkey : env.sshKey = .ok pk)
    (halloc : env.createInstance = .ok (lid, addrs)) :
    (∀ pre a post, addrs = pre ++ a :: post →
      (∀ x ∈ pre, V4.privateIP x = true) → V4.privateIP a = false →
      ((V4.Create d env).2.2).IPAddress = V4.ipToString a) ∧
    ((∀ x ∈ addrs, V4.privateIP x = true) →
      (V4.Create d env).2.1 = CResult.fail "Linode IP Address is not found" ∧
      ((V4.Create d env).2.2).IPAddress = "") := by
  constructor
  · rintro pre a post rfl hpre ha
    have hfind := find_first_not_private pre post a hpre ha
    have hne := ipToString_ne_empty a
    cases hw : env.waitRunning <;>
      simp [V4.Create, hkey, halloc, hfind, hne, hw]
  · intro hall
    have hfind := find_none_of_all_private addrs hall
    simp [V4.Create, hkey, halloc, hfind, hip]

/-- C2, witness: a private address followed by a public one; the recorded
address is the public one, the second of the list. -/
theorem c2_create_picks_first_public_witness :
    ((V4.Create ({} : V4.Driver)
        ⟨.ok "pk", .ok (9, [V4.ipNat 192 168 1 1, V4.ipNat 8 8 8 8]), .ok ()⟩).2.2).IPAddress =
      V4.ipToString (V4.ipNat 8 8 8 8) :=
  (c2_create_picks_first_public ({} : V4.Driver)
      ⟨.ok "pk", .ok (9, [V4.ipNat 192 168 1 1, V4.ipNat 8 8 8 8]), .ok ()⟩
      "pk" 9 [V4.ipNat 192 168 1 1, V4.ipNat 8 8 8 8] rfl rfl rfl).1
    [V4.ipNat 192 168 1 1] (V4.ipNat 8 8 8 8) [] rfl (by decide) (by decide)

/-- When every tick up to the fuel reports a job still in progress, the
poller walks all its ticks and times out, one status query per tick. -/
theorem waitAux_all_waitMore (resp : Nat → Except String (List Legacy.JobInfo))
    (jobId : Int) (fuel elapsed : Nat)
    (h : ∀ t, elapsed < t → t ≤ elapsed + fuel →
      Legacy.waitForJobStep (resp t) jobId = Legacy.JobStep.waitMore) :
    Legacy.waitForJobAux resp jobId fuel elapsed =
      (List.replicate fuel RemoteCall.jobList, Legacy.WaitResult.timedOut,
       elapsed + fuel) := by
  induction fuel generalizing elapsed with
  | zero => simp [Legacy.waitForJobAux]
  | succ n ih =>
    have h1 : Legacy.waitForJobStep (resp (elapsed + 1)) jobId =
        Legacy.JobStep.waitMore := h (elapsed + 1) (by omega) (by omega)
    have h2 := ih (elapsed + 1) (fun t ht1 ht2 => h t (by omega) (by omega))
    rw [Legacy.waitForJobAux, h1]
    simp only [h2, List.replicate_succ, Prod.mk.injEq]
    refine ⟨trivial, trivial, by omega⟩

/-- When the job first reports success at tick k within the fuel, the
poller returns success at tick k after exactly k status queries. -/
theorem waitAux_success_at (resp : Nat → Except String (List Legacy.JobInfo))
    (jobId : Int) (fuel elapsed k : Nat)
    (hk1 : elapsed < k) (hk2 : k ≤ elapsed + fuel)
    (hstep : Legacy.waitForJobStep (resp k) jobId = Legacy.JobStep.success)
    (hall : ∀ t, elapsed < t → t < k →
      Legacy.waitForJobStep (resp t) jobId = Legacy.JobStep.waitMore) :
    Legacy.waitForJobAux resp jobId fuel elapsed =
      (List.replicate (k - elapsed) RemoteCall.jobList,
       Legacy.WaitResult.success, k) := by
  induction fuel generalizing elapsed with
  | zero => omega
  | succ n ih =>
    by_cases hk : k = elapsed + 1
    · subst hk
      rw [Legacy.waitForJobAux, hstep]
      simp [show elapsed + 1 - elapsed = 1 by omega]
    · have h1 : Legacy.waitForJobStep (resp (elapsed + 1)) jobId =
          Legacy.JobStep.waitMore := hall (elapsed + 1) (by omega) (by omega)
      have h2 := ih (elapsed + 1) (by omega) (by omega)
        (fun t ht1 ht2 => hall t (by omega) ht2)
      rw [Legacy.waitForJobAux, h1]
      simp only [h2, Prod.mk.injEq]
      rw [show k - elapsed = (k - (elapsed + 1)) + 1 by omega, List.replicate_succ]
      trivial

/-- C4: for a job that keeps reporting in-progress at every tick up to
the timeout, waitForJob returns the timeout failure exactly at
timeOutSeconds seconds, after one status query per second; and for a job
that first reports success at tick k within the timeout, waitForJob
returns success at k seconds. -/
theorem c4_wait_timeout_and_success
    (resp : Nat → Except String (List Legacy.JobInfo)) (jobId : Int) (T : Nat) :
    ((∀ t, 1 ≤ t → t ≤ T →
        Legacy.waitForJobStep (resp t) jobId = Legacy.JobStep.waitMore) →
      Legacy.waitForJob resp jobId T =
        (List.replicate T RemoteCall.jobList, Legacy.WaitResult.timedOut, T)) ∧
    (∀ k, 1 ≤ k → k ≤ T →
      Legacy.waitForJobStep (resp k) jobId = Legacy.JobStep.success →
      (∀ t, 1 ≤ t → t < k →
        Legacy.waitForJobStep (resp t) jobId = Legacy.JobStep.waitMore) →
      Legacy.waitForJob resp jobId T =
        (List.replicate k RemoteCall.jobList, Legacy.WaitResult.success, k)) := by
  constructor
  · intro h
    have := waitAux_all_waitMore resp jobId T 0 (by simpa using h)
    simpa [Legacy.waitForJob] using this
  · intro k hk1 hk2 hstep hall
    have := waitAux_success_at resp jobId T 0 k (by omega) (by omega) hstep
      (by simpa using hall)
    simpa [Legacy.waitForJob] using this

/-- C4, witness: a job that never succeeds times out after exactly 2 of
its 2 seconds, and a job that succeeds at the first tick returns success
at 1 second. -/
theorem c4_wait_timeout_and_success_witness :
    Legacy.waitForJob (fun _ => Except.ok [⟨5, "0"⟩]) 5 2 =
      (List.replicate 2 RemoteCall.jobList, Legacy.WaitResult.timedOut, 2) ∧
    Legacy.waitForJob (fun _ => Except.ok [⟨5, "1"⟩]) 5 2 =
      (List.replicate 1 RemoteCall.jobList, Legacy.WaitResult.success, 1) :=
  ⟨(c4_wait_timeout_and_success (fun _ => Except.ok [⟨5, "0"⟩]) 5 2).1
      (fun t _ _ => by decide),
   (c4_wait_timeout_and_success (fun _ => Except.ok [⟨5, "1"⟩]) 5 2).2 1
      (by decide) (by decide) (by decide) (fun t h1 h2 => by omega)⟩

/-- C3: the job poller's guard against a missing job compares the length
of the job list against 0 with a strict less-than, which never holds, so
on an empty job-status response the source indexes the first element of
an empty list and panics instead of returning the not-found failure; on a
non-empty response whose first job identifier differs from the requested
one it does return the not-found failure. -/
theorem c3_empty_job_list_panics :
    Legacy.waitForJobStep (Except.ok []) 1 = Legacy.JobStep.indexOutOfRange ∧
    Legacy.waitForJobStep (Except.ok [⟨2, "1"⟩]) 1 = Legacy.JobStep.notFound ∧
    Legacy.waitForJob (fun _ => Except.ok []) 1 60 =
      ([RemoteCall.jobList], Legacy.WaitResult.indexOutOfRange, 1) := by
  decide

/-- C8: for a handle whose address field is set, GetIP returns the cached
value, issues no remote call, leaves the handle unchanged, and a second
GetIP without an intervening Create returns the same value. -/
theorem c8_getip_cached_idempotent (d : Legacy.Driver) (h : d.IPAddress ≠ "") :
    Legacy.GetIP d = ([], .ok d.IPAddress, d) ∧
    Legacy.GetIP ((Legacy.GetIP d).2.2) = Legacy.GetIP d := by
  simp [Legacy.GetIP, h]

/-- C8, witness: GetIP evaluated twice on a concrete handle with a cached
address. -/
theorem c8_getip_cached_idempotent_witness :
    Legacy.GetIP { IPAddress := "203.0.113.7" } =
      ([], .ok "203.0.113.7", { IPAddress := "203.0.113.7" }) ∧
    Legacy.GetIP ((Legacy.GetIP { IPAddress := "203.0.113.7" }).2.2) =
      Legacy.GetIP { IPAddress := "203.0.113.7" } :=
  c8_getip_cached_idempotent { IPAddress := "203.0.113.7" } (by decide)

/-- C5: configuration binding issues no remote call on any input, and in
both variants a missing credential or a missing root password makes it
return a validation error, so no remote call is ever attempted before
that error is reported. -/
theorem c5_config_requires_credentials (d : Legacy.Driver) (d4 : V4.Driver)
    (flags : DriverOptions) :
    ((Legacy.SetConfigFromFlags d flags).1 = [] ∧
     (V4.SetConfigFromFlags d4 flags).1 = []) ∧
    (flags.str "linode-api-key" = "" ∨ flags.str "linode-root-pass" = "" →
      ∃ e, (Legacy.SetConfigFromFlags d flags).2 = .error e) ∧
    (flags.str "linode-token" = "" ∨ flags.str "linode-root-pass" = "" →
      ∃ e, (V4.SetConfigFromFlags d4 flags).2 = .error e) := by
  refine ⟨⟨?_, ?_⟩, ?_, ?_⟩
  · simp only [Legacy.SetConfigFromFlags]
    split
    · rfl
    · split <;> rfl
  · simp only [V4.SetConfigFromFlags]
    split
    · rfl
    · split <;> rfl
  · rintro (h | h)
    · exact ⟨"linode driver requires the --linode-api-key option",
        by simp [Legacy.SetConfigFromFlags, h]⟩
    · by_cases hA : flags.str "linode-api-key" = ""
      · exact ⟨"linode driver requires the --linode-api-key option",
          by simp [Legacy.SetConfigFromFlags, hA]⟩
      · exact ⟨"linode driver requires the --linode-root-pass option",
          by simp [Legacy.SetConfigFromFlags, hA, h]⟩
  · rintro (h | h)
    · exact ⟨"linode driver requires the --linode-token option",
        by simp [V4.SetConfigFromFlags, h]⟩
    · by_cases hA : flags.str "linode-token" = ""
      · exact ⟨"linode driver requires the --linode-token option",
          by simp [V4.SetConfigFromFlags, hA]⟩
      · exact ⟨"linode driver requires the --linode-root-pass option",
          by simp [V4.SetConfigFromFlags, hA, h]⟩

/-- C5, witness: binding with every option empty fails in both
variants. -/
theorem c5_config_requires_credentials_witness :
    (∃ e, (Legacy.SetConfigFromFlags {} ⟨fun _ => "", fun _ => 0⟩).2 =
      .error e) ∧
    (∃ e, (V4.SetConfigFromFlags {} ⟨fun _ => "", fun _ => 0⟩).2 = .error e) :=
  ⟨(c5_config_requires_credentials {} {} ⟨fun _ => "", fun _ => 0⟩).2.1
      (Or.inl rfl),
   (c5_config_requires_credentials {} {} ⟨fun _ => "", fun _ => 0⟩).2.2
      (Or.inl rfl)⟩

/-- The tail of legacy Create from the boot step returns the handle it
was given, whatever the environment answers. -/
theorem createBootOn_driver (d : Legacy.Driver) (env : Legacy.CreateEnv) :
    (Legacy.createBootOn d env).2.2 = d := by
  simp only [Legacy.createBootOn, Legacy.afterWait]
  repeat' split
  all_goals rfl

/-- The tail of legacy Create from the boot-configuration step returns
the handle it was given. -/
theorem createConfigOn_driver (d : Legacy.Driver) (env : Legacy.CreateEnv) :
    (Legacy.createConfigOn d env).2.2 = d := by
  simp only [Legacy.createConfigOn]
  split
  · rfl
  · simpa using createBootOn_driver d env

/-- The tail of legacy Create from the swap-disk step returns the handle
it was given. -/
theorem createSwapOn_driver (d : Legacy.Driver) (env : Legacy.CreateEnv) :
    (Legacy.createSwapOn d env).2.2 = d := by
  simp only [Legacy.createSwapOn, Legacy.afterWait]
  repeat' split
  all_goals first | rfl | simpa using createConfigOn_driver d env

/-- The tail of legacy Create from the primary-disk step returns the
handle it was given. -/
theorem createDisksOn_driver (d : Legacy.Driver) (env : Legacy.CreateEnv) :
    (Legacy.createDisksOn d env).2.2 = d := by
  simp only [Legacy.createDisksOn, Legacy.afterWait]
  repeat' split
  all_goals first | rfl | simpa using createSwapOn_driver d env

/-- From the address-discovery step on, the identifier field of the
handle is never written again. -/
theorem createFromIp_LinodeId (d1 : Legacy.Driver) (env : Legacy.CreateEnv) :
    ((Legacy.createFromIp d1 env).2.2).LinodeId = d1.LinodeId := by
  simp only [Legacy.createFromIp]
  repeat' split
  all_goals first | rfl | simp [createDisksOn_driver]

/-- C7, counterexample: on a run in which allocation succeeds with
identifier 42 and the subsequent address discovery fails, Create returns
a failure and yet the handle already records identifier 42, though it
held none before: the handle holds an instance identifier although Create
did not succeed. -/
theorem c7_id_recorded_before_success :
    (Legacy.Create ({} : Legacy.Driver) Legacy.ipListFailEnv).2.1 =
      CResult.fail "boom" ∧
    ((Legacy.Create ({} : Legacy.Driver) Legacy.ipListFailEnv).2.2).LinodeId = 42 ∧
    ({} : Legacy.Driver).LinodeId = 0 := by
  decide

/-- C7, amended: the handle records no identifier until the allocation
call succeeds; from the moment allocation succeeds the handle records the
identifier the allocation call returned, whether or not the rest of
Create succeeds; and no later operation (start, stop, restart, kill,
remove, get-state, get-IP, get-URL) changes the recorded identifier or
the recorded IP address. -/
theorem c7_handle_stability (d : Legacy.Driver) (env : Legacy.CreateEnv)
    (resp : Except String Unit) (stresp : Except String (List Int)) :
    (∀ e, env.sshKey = .error e → (Legacy.Create d env).2.2 = d) ∧
    (∀ pk e, env.sshKey = .ok pk → env.linodeCreate = .error e →
      ((Legacy.Create d env).2.2).LinodeId = d.LinodeId ∧
      ((Legacy.Create d env).2.2).IPAddress = d.IPAddress) ∧
    (∀ pk lid, env.sshKey = .ok pk → env.linodeCreate = .ok lid →
      ((Legacy.Create d env).2.2).LinodeId = lid) ∧
    ((Legacy.Start d resp).2.2.LinodeId = d.LinodeId ∧
     (Legacy.Start d resp).2.2.IPAddress = d.IPAddress) ∧
    ((Legacy.Stop d resp).2.2.LinodeId = d.LinodeId ∧
     (Legacy.Stop d resp).2.2.IPAddress = d.IPAddress) ∧
    ((Legacy.Restart d resp).2.2.LinodeId = d.LinodeId ∧
     (Legacy.Restart d resp).2.2.IPAddress = d.IPAddress) ∧
    ((Legacy.Kill d resp).2.2.LinodeId = d.LinodeId ∧
     (Legacy.Kill d resp).2.2.IPAddress = d.IPAddress) ∧
    ((Legacy.Remove d resp).2.2.LinodeId = d.LinodeId ∧
     (Legacy.Remove d resp).2.2.IPAddress = d.IPAddress) ∧
    ((Legacy.GetState d stresp).2.2.LinodeId = d.LinodeId ∧
     (Legacy.GetState d stresp).2.2.IPAddress = d.IPAddress) ∧
    (Legacy.GetIP d).2.2 = d ∧
    (Legacy.GetURL d).2.2 = d := by
  refine ⟨?_, ?_, ?_, ⟨rfl, rfl⟩, ⟨rfl, rfl⟩, ⟨rfl, rfl⟩, ⟨rfl, rfl⟩,
    ⟨rfl, rfl⟩, ⟨rfl, rfl⟩, rfl, ?_⟩
  · intro e h
    simp [Legacy.Create, h]
  · intro pk e h1 h2
    simp [Legacy.Create, h1, h2]
  · intro pk lid h1 h2
    simp only [Legacy.Create, h1, h2]
    split
    · simpa using createFromIp_LinodeId _ env
    · split
      · rfl
      · simpa using createFromIp_LinodeId _ env
  · unfold Legacy.GetURL
    split <;> rfl

/-- C9: Kill and Stop are extensionally equal in both driver variants:
same remote shutdown call, same result, same final handle, for every
handle and every response. -/
theorem c9_kill_equals_stop (d : Legacy.Driver) (d4 : V4.Driver)
    (resp : Except String Unit) :
    Legacy.Kill d resp = Legacy.Stop d resp ∧ V4.Kill d4 resp = V4.Stop d4 resp :=
  ⟨rfl, rfl⟩

/-- C10: the v4 configuration binding reads the credential under the
option name linode-token, but GetCreateFlags declares no flag of that
name: the credential flag (the one carrying the LINODE_TOKEN environment
fallback) is declared as linode-api-token, a name the binding never
reads. -/
theorem c10_credential_flag_name_mismatch :
    "linode-token" ∈ V4.setConfigOptionNames ∧
    "linode-token" ∉ V4.GetCreateFlags.map V4.FlagDef.Name ∧
    (∀ f ∈ V4.GetCreateFlags, f.EnvVar = "LINODE_TOKEN" →
      f.Name = "linode-api-token") ∧
    "linode-api-token" ∉ V4.setConfigOptionNames := by
  decide

/-- Every remote call the job poller issues is a job status query. -/
theorem waitAux_trace (resp : Nat → Except String (List Legacy.JobInfo))
    (jobId : Int) (fuel elapsed : Nat) (c : RemoteCall)
    (h : c ∈ (Legacy.waitForJobAux resp jobId fuel elapsed).1) :
    c = RemoteCall.jobList := by
  induction fuel generalizing elapsed with
  | zero => simp [Legacy.waitForJobAux] at h
  | succ n ih =>
    rw [Legacy.waitForJobAux] at h
    cases hs : Legacy.waitForJobStep (resp (elapsed + 1)) jobId <;>
      rw [hs] at h <;> simp at h
    case success => exact h
    case notFound => exact h
    case indexOutOfRange => exact h
    case apiError e => exact h
    case waitMore =>
      rcases h with h | h
      · exact h
      · exact ih (elapsed + 1) h

/-- Every remote call a whole waitForJob run issues is a job status
query. -/
theorem waitForJob_trace (resp : Nat → Except String (List Legacy.JobInfo))
    (jobId : Int) (T : Nat) (c : RemoteCall)
    (h : c ∈ (Legacy.waitForJob resp jobId T).1) : c = RemoteCall.jobList :=
  waitAux_trace resp jobId T 0 c (by simpa [Legacy.waitForJob] using h)

/-- Every remote call the running-state poll issues is an instance list
query. -/
theorem waitRunningAux_trace (resp : Nat → Except String (List Int))
    (fuel attempt : Nat) (c : RemoteCall)
    (h : c ∈ (Legacy.waitForRunningAux resp fuel attempt).1) :
    c = RemoteCall.linodeList := by
  induction fuel generalizing attempt with
  | zero => simp [Legacy.waitForRunningAux] at h
  | succ n ih =>
    rw [Legacy.waitForRunningAux] at h
    cases hs : Legacy.machineInRunning (resp attempt) with
    | none => rw [hs] at h; simp at h; exact h
    | some b =>
      cases b
      · rw [hs] at h
        simp at h
        rcases h with h | h
        · exact h
        · exact ih (attempt + 1) h
      · rw [hs] at h; simp at h; exact h

/-- Every remote call the whole running-state poll issues is an instance
list query. -/
theorem waitForSpecificRunning_trace (resp : Nat → Except String (List Int))
    (maxAttempts : Nat) (c : RemoteCall)
    (h : c ∈ (Legacy.WaitForSpecificRunning resp maxAttempts).1) :
    c = RemoteCall.linodeList :=
  waitRunningAux_trace resp maxAttempts 1 c
    (by simpa [Legacy.WaitForSpecificRunning] using h)

/-- A remote call issued around a job wait comes from the wait itself or
from the continuation. -/
theorem afterWait_trace (jobName : String) (T : Nat)
    (w : List RemoteCall × Legacy.WaitResult × Nat) (d : Legacy.Driver)
    (k : Unit → List RemoteCall × CResult × Legacy.Driver) (c : RemoteCall)
    (h : c ∈ (Legacy.afterWait jobName T w d k).1) :
    c ∈ w.1 ∨ c ∈ (k ()).1 := by
  unfold Legacy.afterWait at h
  cases hs : w.2.1 <;> rw [hs] at h <;>
    first
      | exact Or.inl h
      | (simp at h; tauto)

/-- Every remote call of the create tail from the boot step is a create
workflow call. -/
theorem createBootOn_trace (d : Legacy.Driver) (env : Legacy.CreateEnv)
    (c : RemoteCall) (h : c ∈ (Legacy.createBootOn d env).1) :
    c ∈ Legacy.createCalls := by
  unfold Legacy.createBootOn at h
  cases hb : env.boot with
  | error e =>
    rw [hb] at h
    simp at h
    subst h
    decide
  | ok jobId =>
    rw [hb] at h
    simp at h
    rcases h with h | h
    · subst h; decide
    · rcases afterWait_trace _ _ _ _ _ _ h with h2 | h2
      · have := waitForJob_trace env.bootJobResp jobId 60 c h2
        subst this; decide
      · rcases hp : Legacy.WaitForSpecificRunning env.statusResp 120 with ⟨ptr, pr⟩
        rw [hp] at h2
        have hin : c ∈ (Legacy.WaitForSpecificRunning env.statusResp 120).1 := by
          rw [hp]
          cases pr <;> simpa using h2
        have := waitForSpecificRunning_trace env.statusResp 120 c hin
        subst this; decide

/-- Every remote call of the create tail from the boot-configuration
step is a create workflow call. -/
theorem createConfigOn_trace (d : Legacy.Driver) (env : Legacy.CreateEnv)
    (c : RemoteCall) (h : c ∈ (Legacy.createConfigOn d env).1) :
    c ∈ Legacy.createCalls := by
  unfold Legacy.createConfigOn at h
  cases hc : env.configCreate with
  | error e =>
    rw [hc] at h
    simp at h
    subst h
    decide
  | ok u =>
    rw [hc] at h
    simp at h
    rcases h with h | h
    · subst h; decide
    · exact createBootOn_trace d env c h

/-- Every remote call of the create tail from the swap-disk step is a
create workflow call. -/
theorem createSwapOn_trace (d : Legacy.Driver) (env : Legacy.CreateEnv)
    (c : RemoteCall) (h : c ∈ (Legacy.createSwapOn d env).1) :
    c ∈ Legacy.createCalls := by
  unfold Legacy.createSwapOn at h
  cases hc : env.swapCreate with
  | error e =>
    rw [hc] at h
    simp at h
    subst h
    decide
  | ok jobAndDisk =>
    rw [hc] at h
    simp at h
    rcases h with h | h
    · subst h; decide
    · rcases afterWait_trace _ _ _ _ _ _ h with h2 | h2
      · have := waitForJob_trace env.swapJobResp jobAndDisk.1 60 c h2
        subst this; decide
      · exact createConfigOn_trace d env c h2

/-- Every remote call of the create tail from the primary-disk step is a
create workflow call. -/
theorem createDisksOn_trace (d : Legacy.Driver) (env : Legacy.CreateEnv)
    (c : RemoteCall) (h : c ∈ (Legacy.createDisksOn d env).1) :
    c ∈ Legacy.createCalls := by
  unfold Legacy.createDisksOn at h
  cases hc : env.diskFromDist with
  | error e =>
    rw [hc] at h
    simp at h
    subst h
    decide
  | ok jobAndDisk =>
    rw [hc] at h
    simp at h
    rcases h with h | h
    · subst h; decide
    · rcases afterWait_trace _ _ _ _ _ _ h with h2 | h2
      · have := waitForJob_trace env.diskJobResp jobAndDisk.1 60 c h2
        subst this; decide
      · exact createSwapOn_trace d env c h2

/-- Every remote call of the create tail from the address-discovery step
is a create workflow call. -/
theorem createFromIp_trace (d1 : Legacy.Driver) (env : Legacy.CreateEnv)
    (c : RemoteCall) (h : c ∈ (Legacy.createFromIp d1 env).1) :
    c ∈ Legacy.createCalls := by
  unfold Legacy.createFromIp at h
  cases hi : env.ipList with
  | error e =>
    rw [hi] at h
    simp at h
    subst h
    decide
  | ok fips =>
    rw [hi] at h
    simp at h
    split at h
    · simp at h
      subst h
      decide
    · simp at h
      rcases h with h | h
      · subst h; decide
      · exact createDisksOn_trace _ env c h

/-- Every remote call legacy Create issues is a create workflow call. -/
theorem create_trace (d : Legacy.Driver) (env : Legacy.CreateEnv)
    (c : RemoteCall) (h : c ∈ (Legacy.Create d env).1) :
    c ∈ Legacy.createCalls := by
  unfold Legacy.Create at h
  cases hk : env.sshKey with
  | error e => rw [hk] at h; simp at h
  | ok pk =>
    rw [hk] at h
    simp at h
    cases ha : env.linodeCreate with
    | error e =>
      rw [ha] at h
      simp at h
      subst h
      decide
    | ok lid =>
      rw [ha] at h
      simp at h
      split at h
      · simp at h
        rcases h with h | h
        · subst h; decide
        · exact createFromIp_trace _ env c h
      · rename_i hlab
        cases hu : env.linodeUpdate with
        | error e =>
          rw [hu] at h
          simp at h
          rcases h with h | h <;> (subst h; decide)
        | ok u =>
          rw [hu] at h
          simp at h
          rcases h with h | h | h
          · subst h; decide
          · subst h; decide
          · exact createFromIp_trace _ env c h

/-- C6: legacy Create never issues a delete, shutdown or reboot call (no
compensating cleanup of already-created remote resources), and a failure
at any step (key generation, allocation, labeling, address discovery,
primary disk, swap disk, boot configuration, boot, running poll) makes
Create return the underlying error at once, with the call trace stopping
at the failing step: no later call is issued. -/
theorem c6_create_fail_fast (d : Legacy.Driver) (env : Legacy.CreateEnv) :
    (∀ c ∈ (Legacy.Create d env).1,
      c ≠ RemoteCall.linodeDelete ∧ c ≠ RemoteCall.linodeShutdown ∧
      c ≠ RemoteCall.linodeReboot) ∧
    (∀ e, env.sshKey = .error e →
      Legacy.Create d env = ([], CResult.fail e, d)) ∧
    (∀ pk e, env.sshKey = .ok pk → env.linodeCreate = .error e →
      Legacy.Create d env =
        ([RemoteCall.linodeCreate], CResult.fail e,
         { d with clientInit := true })) ∧
    (∀ pk lid e, env.sshKey = .ok pk → env.linodeCreate = .ok lid →
      d.LinodeLabel ≠ "" → env.linodeUpdate = .error e →
      Legacy.Create d env =
        ([RemoteCall.linodeCreate, RemoteCall.linodeUpdate], CResult.fail e,
         { d with clientInit := true, LinodeId := lid })) ∧
    (∀ pk lid e, env.sshKey = .ok pk → env.linodeCreate = .ok lid →
      d.LinodeLabel = "" → env.ipList = .error e →
      Legacy.Create d env =
        ([RemoteCall.linodeCreate, RemoteCall.ipList], CResult.fail e,
         { d with clientInit := true, LinodeId := lid })) ∧
    (∀ pk lid fips e, env.sshKey = .ok pk → env.linodeCreate = .ok lid →
      d.LinodeLabel = "" → env.ipList = .ok fips →
      Legacy.selectPublicIP d.IPAddress fips ≠ "" →
      env.diskFromDist = .error e →
      Legacy.Create d env =
        ([RemoteCall.linodeCreate, RemoteCall.ipList,
          RemoteCall.diskCreateFromDistribution], CResult.fail e,
         { d with clientInit := true, LinodeId := lid,
                  IPAddress := Legacy.selectPublicIP d.IPAddress fips })) ∧
    (∀ pk lid fips j1 k1 w1 n1 e, env.sshKey = .ok pk →
      env.linodeCreate = .ok lid → d.LinodeLabel = "" →
      env.ipList = .ok fips →
      Legacy.selectPublicIP d.IPAddress fips ≠ "" →
      env.diskFromDist = .ok (j1, k1) →
      Legacy.waitForJob env.diskJobResp j1 60 =
        (w1, Legacy.WaitResult.success, n1) →
      env.swapCreate = .error e →
      Legacy.Create d env =
        ([RemoteCall.linodeCreate, RemoteCall.ipList,
          RemoteCall.diskCreateFromDistribution] ++ w1 ++
          [RemoteCall.diskCreate], CResult.fail e,
         { d with clientInit := true, LinodeId := lid,
                  IPAddress := Legacy.selectPublicIP d.IPAddress fips })) ∧
    (∀ pk lid fips j1 k1 w1 n1 j2 k2 w2 n2 e, env.sshKey = .ok pk →
      env.linodeCreate = .ok lid → d.LinodeLabel = "" →
      env.ipList = .ok fips →
      Legacy.selectPublicIP d.IPAddress fips ≠ "" →
      env.diskFromDist = .ok (j1, k1) →
      Legacy.waitForJob env.diskJobResp j1 60 =
        (w1, Legacy.WaitResult.success, n1) →
      env.swapCreate = .ok (j2, k2) →
      Legacy.waitForJob env.swapJobResp j2 60 =
        (w2, Legacy.WaitResult.success, n2) →
      env.configCreate = .error e →
      Legacy.Create d env =
        ([RemoteCall.linodeCreate, RemoteCall.ipList,
          RemoteCall.diskCreateFromDistribution] ++ w1 ++
          [RemoteCall.diskCreate] ++ w2 ++ [RemoteCall.configCreate],
         CResult.fail e,
         { d with clientInit := true, LinodeId := lid,
                  IPAddress := Legacy.selectPublicIP d.IPAddress fips })) ∧
    (∀ pk lid fips j1 k1 w1 n1 j2 k2 w2 n2 e, env.sshKey = .ok pk →
      env.linodeCreate = .ok lid → d.LinodeLabel = "" →
      env.ipList = .ok fips →
      Legacy.selectPublicIP d.IPAddress fips ≠ "" →
      env.diskFromDist = .ok (j1, k1) →
      Legacy.waitForJob env.diskJobResp j1 60 =
        (w1, Legacy.WaitResult.success, n1) →
      env.swapCreate = .ok (j2, k2) →
      Legacy.waitForJob env.swapJobResp j2 60 =
        (w2, Legacy.WaitResult.success, n2) →
      env.configCreate = .ok () → env.boot = .error e →
      Legacy.Create d env =
        ([RemoteCall.linodeCreate, RemoteCall.ipList,
          RemoteCall.diskCreateFromDistribution] ++ w1 ++
          [RemoteCall.diskCreate] ++ w2 ++
          [RemoteCall.configCreate, RemoteCall.linodeBoot],
         CResult.fail e,
         { d with clientInit := true, LinodeId := lid,
                  IPAddress := Legacy.selectPublicIP d.IPAddress fips })) ∧
    (∀ pk lid fips j1 k1 w1 n1 j2 k2 w2 n2 j3 w3 n3 ptr, env.sshKey = .ok pk →
      env.linodeCreate = .ok lid → d.LinodeLabel = "" →
      env.ipList = .ok fips →
      Legacy.selectPublicIP d.IPAddress fips ≠ "" →
      env.diskFromDist = .ok (j1, k1) →
      Legacy.waitForJob env.diskJobResp j1 60 =
        (w1, Legacy.WaitResult.success, n1) →
      env.swapCreate = .ok (j2, k2) →
      Legacy.waitForJob env.swapJobResp j2 60 =
        (w2, Legacy.WaitResult.success, n2) →
      env.configCreate = .ok () → env.boot = .ok j3 →
      Legacy.waitForJob env.bootJobResp j3 60 =
        (w3, Legacy.WaitResult.success, n3) →
      Legacy.WaitForSpecificRunning env.statusResp 120 =
        (ptr, Legacy.PollResult.timedOut) →
      Legacy.Create d env =
        ([RemoteCall.linodeCreate, RemoteCall.ipList,
          RemoteCall.diskCreateFromDistribution] ++ w1 ++
          [RemoteCall.diskCreate] ++ w2 ++
          [RemoteCall.configCreate, RemoteCall.linodeBoot] ++ w3 ++ ptr,
         CResult.fail
           "wait for machine running failed: maximum number of retries (120) exceeded",
         { d with clientInit := true, LinodeId := lid,
                  IPAddress := Legacy.selectPublicIP d.IPAddress fips })) := by
  refine ⟨?_, ?_, ?_, ?_, ?_, ?_, ?_, ?_, ?_, ?_⟩
  · intro c hc
    have hm := create_trace d env c hc
    simp [Legacy.createCalls] at hm
    rcases hm with rfl | rfl | rfl | rfl | rfl | rfl | rfl | rfl | rfl <;>
      exact ⟨by decide, by decide, by decide⟩
  · intro e h
    simp [Legacy.Create, h]
  · intro pk e h1 h2
    simp [Legacy.Create, h1, h2]
  · intro pk lid e h1 h2 h3 h4
    simp [Legacy.Create, h1, h2, h3, h4]
  · intro pk lid e h1 h2 h3 h4
    simp [Legacy.Create, Legacy.createFromIp, h1, h2, h3, h4]
  · intro pk lid fips e h1 h2 h3 h4 h5 h6
    simp [Legacy.Create, Legacy.createFromIp, Legacy.createDisksOn,
      h1, h2, h3, h4, h5, h6]
  · intro pk lid fips j1 k1 w1 n1 e h1 h2 h3 h4 h5 h6 h7 h8
    simp [Legacy.Create, Legacy.createFromIp, Legacy.createDisksOn,
      Legacy.createSwapOn, Legacy.afterWait, h1, h2, h3, h4, h5, h6, h7, h8]
  · intro pk lid fips j1 k1 w1 n1 j2 k2 w2 n2 e h1 h2 h3 h4 h5 h6 h7 h8 h9 h10
    simp [Legacy.Create, Legacy.createFromIp, Legacy.createDisksOn,
      Legacy.createSwapOn, Legacy.createConfigOn, Legacy.afterWait,
      h1, h2, h3, h4, h5, h6, h7, h8, h9, h10]
  · intro pk lid fips j1 k1 w1 n1 j2 k2 w2 n2 e h1 h2 h3 h4 h5 h6 h7 h8 h9
      h10 h11
    simp [Legacy.Create, Legacy.createFromIp, Legacy.createDisksOn,
      Legacy.createSwapOn, Legacy.createConfigOn, Legacy.createBootOn,
      Legacy.afterWait, h1, h2, h3, h4, h5, h6, h7, h8, h9, h10, h11]
  · intro pk lid fips j1 k1 w1 n1 j2 k2 w2 n2 j3 w3 n3 ptr h1 h2 h3 h4 h5 h6
      h7 h8 h9 h10 h11 h12 h13
    simp [Legacy.Create, Legacy.createFromIp, Legacy.createDisksOn,
      Legacy.createSwapOn, Legacy.createConfigOn, Legacy.createBootOn,
      Legacy.afterWait, h1, h2, h3, h4, h5, h6, h7, h8, h9, h10, h11, h12, h13]

/-- C6, witness: on a concrete run whose primary-disk creation fails, the
trace stops at the disk call, the underlying error is returned, and in
particular no delete call was issued. -/
theorem c6_create_fail_fast_witness :
    Legacy.Create ({} : Legacy.Driver) Legacy.diskFailEnv =
      ([RemoteCall.linodeCreate, RemoteCall.ipList,
        RemoteCall.diskCreateFromDistribution], CResult.fail "boom",
       { clientInit := true, LinodeId := 42, IPAddress := "203.0.113.7" }) :=
  (c6_create_fail_fast ({} : Legacy.Driver)
      Legacy.diskFailEnv).2.2.2.2.2.1
    "pk" 42 [⟨"203.0.113.7", 1⟩] "boom" rfl rfl rfl rfl (by decide) rfl

end DockerMachineLinode
